import Mathlib

/-!
Verification of the level-gated log emitter in `src/logging/logging.c`.

The C file is a single translation unit built around preprocessor macros:

* six severity constants `LOG_NONE = 0 .. LOG_DEBUG = 5` (lines 14-19);
* `_log_internal(fmt, ...)` (lines 52-57) prints
  `printf("[%-30.30s: %-4d] ", __FILE__, __LINE__); printf(fmt, ...); printf("\n");`
  and is redefined to an empty statement when `SERIAL_VERBOSITY <= LOG_NONE`
  (lines 62-65);
* `ENFORCE_INTEGER_LITERAL(literal)` (line 72) token-pastes `.0` onto its
  argument, so `4` becomes the double literal `4.0` while an identifier such
  as `i` becomes `i.0`, which is not a valid token and fails to compile;
* `_log(level, fmt, ...)` (lines 84-89) expands to
  `if (ENFORCE_INTEGER_LITERAL(level) && (level <= SERIAL_VERBOSITY)) { _log_internal(...) }`;
* per-nominal-level module override macros `LOG_*_SMART_SWITCH` (lines 30-44),
  each defaulting to its own level when not defined on the command line;
* wrappers `LOGi`/`LOGf` (lines 91-97), with `LOGi` redefined to an empty
  statement when `SERIAL_VERBOSITY < LOG_INFO`;
* `main` (lines 102-153) with two `_log` calls, one `LOGi` call, and two
  blocks guarded by the undefined macro `FORBIDDEN_STATEMENTS`.

We embed the runtime behaviour as functions from the build-time threshold
`SERIAL_VERBOSITY` to the list of lines written to standard output, and the
build-time behaviour (macro expansion, constant folding, dead-code
elimination) as a small statement language.
-/

/-- `#define LOG_DEBUG 5` (logging.c line 14). -/
def LOG_DEBUG : Nat := 5

/-- `#define LOG_INFO 4` (logging.c line 15). -/
def LOG_INFO : Nat := 4

/-- `#define LOG_WARNING 3` (logging.c line 16). -/
def LOG_WARNING : Nat := 3

/-- `#define LOG_ERROR 2` (logging.c line 17). -/
def LOG_ERROR : Nat := 2

/-- `#define LOG_FATAL 1` (logging.c line 18). -/
def LOG_FATAL : Nat := 1

/-- `#define LOG_NONE 0` (logging.c line 19). -/
def LOG_NONE : Nat := 0

/-- Pad a string on the right with spaces to width `w` (printf `-` flag). -/
def padRight (s : String) (w : Nat) : String :=
  s ++ String.mk (List.replicate (w - s.length) ' ')

/-- printf conversion `%-30.30s`: truncate to 30 characters, then left-justify
in a field of width 30. -/
def fmtFile30 (s : String) : String :=
  padRight (String.mk (s.toList.take 30)) 30

/-- printf conversion `%-4d` applied to the (positive) `__LINE__` value:
left-justify the decimal representation in a field of minimum width 4. -/
def fmtLine4 (n : Nat) : String :=
  padRight (toString n) 4

/-- The single line written by the body of `_log_internal` (logging.c lines
52-57): `[%-30.30s: %-4d] ` with the file and line, then the formatted
message, then a newline.  We represent output as a list of lines, each line
not including its terminating newline character. -/
def formatLine (file : String) (line : Nat) (msg : String) : String :=
  "[" ++ fmtFile30 file ++ ": " ++ fmtLine4 line ++ "] " ++ msg

/-- `_log_internal` as a function from the build threshold to the lines it
writes: the printf body (lines 52-57), except that when
`SERIAL_VERBOSITY <= LOG_NONE` the macro is redefined to the empty statement
`do { } while(0)` (lines 62-65). -/
def _log_internal (verbosity : Nat) (file : String) (line : Nat) (msg : String) :
    List String :=
  if verbosity ≤ LOG_NONE then [] else [formatLine file line msg]

/-- The condition of the `if` inside `_log` (line 86):
`ENFORCE_INTEGER_LITERAL(level) && (level <= SERIAL_VERBOSITY)`.
For an integer literal `level`, `ENFORCE_INTEGER_LITERAL(level)` is the double
literal `level.0`, which is truthy exactly when `level` is nonzero. -/
def log_gate (level verbosity : Nat) : Bool :=
  (decide (level ≠ 0)) && (decide (level ≤ verbosity))

/-- `_log(level, fmt, ...)` (logging.c lines 84-89) as a function from the
build threshold and a literal severity to the lines written. -/
def _log (verbosity level : Nat) (file : String) (line : Nat) (msg : String) :
    List String :=
  if log_gate level verbosity then _log_internal verbosity file line msg else []

/-- The five module-local override macros `LOG_*_SMART_SWITCH` (logging.c
lines 30-44).  Each may be defined on the compiler command line (`some v`) or
left undefined (`none`). -/
structure SmartSwitches where
  debugSwitch : Option Nat
  infoSwitch : Option Nat
  warningSwitch : Option Nat
  errorSwitch : Option Nat
  fatalSwitch : Option Nat
deriving DecidableEq

/-- The `#ifndef ... #define X dflt` default pattern (lines 30-44): an unset
override macro is defined to the given default. -/
def smartSwitch (override : Option Nat) (dflt : Nat) : Nat :=
  override.getD dflt

/-- The build with no `-DLOG_*_SMART_SWITCH` options: all five override
macros are left undefined, so each takes its default (lines 30-44). -/
def noSwitches : SmartSwitches :=
  ⟨none, none, none, none, none⟩

/-- `LOG_DEBUG_SMART_SWITCH`, defaulting to `LOG_DEBUG` (lines 30-32). -/
def LOG_DEBUG_SMART_SWITCH (s : SmartSwitches) : Nat :=
  smartSwitch s.debugSwitch LOG_DEBUG

/-- `LOG_INFO_SMART_SWITCH`, defaulting to `LOG_INFO` (lines 33-35). -/
def LOG_INFO_SMART_SWITCH (s : SmartSwitches) : Nat :=
  smartSwitch s.infoSwitch LOG_INFO

/-- `LOG_WARNING_SMART_SWITCH`, defaulting to `LOG_WARNING` (lines 36-38). -/
def LOG_WARNING_SMART_SWITCH (s : SmartSwitches) : Nat :=
  smartSwitch s.warningSwitch LOG_WARNING

/-- `LOG_ERROR_SMART_SWITCH`, defaulting to `LOG_ERROR` (lines 39-41). -/
def LOG_ERROR_SMART_SWITCH (s : SmartSwitches) : Nat :=
  smartSwitch s.errorSwitch LOG_ERROR

/-- `LOG_FATAL_SMART_SWITCH`, defaulting to `LOG_FATAL` (lines 42-44). -/
def LOG_FATAL_SMART_SWITCH (s : SmartSwitches) : Nat :=
  smartSwitch s.fatalSwitch LOG_FATAL

/-- `LOGf(fmt, ...)` (logging.c line 92): `_log(LOG_FATAL, fmt, ...)` under
every threshold. -/
def LOGf (verbosity : Nat) (file : String) (line : Nat) (msg : String) :
    List String :=
  _log verbosity LOG_FATAL file line msg

/-- `LOGi(fmt, ...)` (logging.c lines 91, 94-97): `_log(LOG_INFO, fmt, ...)`,
but redefined to the empty statement when `SERIAL_VERBOSITY < LOG_INFO`. -/
def LOGi (verbosity : Nat) (file : String) (line : Nat) (msg : String) :
    List String :=
  if verbosity < LOG_INFO then [] else _log verbosity LOG_INFO file line msg

/-- `main` (logging.c lines 102-153) as a function from the build
configuration to the lines written and the return value.  The active
statements are `_log(LOG_INFO, "Log test!")` at line 113,
`_log(LOG_DEBUG_SMART_SWITCH, "Log test of module!")` at line 115 and
`LOGi("Check precompiler output!")` at line 125; the two blocks guarded by
`#ifdef FORBIDDEN_STATEMENTS` (lines 117-120 and 147-151) are excluded from
the build because `FORBIDDEN_STATEMENTS` is defined and immediately undefined
at lines 99-100. -/
def mainFn (verbosity : Nat) (s : SmartSwitches) : List String × Int :=
  (_log verbosity LOG_INFO "logging.c" 113 "Log test!" ++
    _log verbosity (LOG_DEBUG_SMART_SWITCH s) "logging.c" 115 "Log test of module!" ++
    LOGi verbosity "logging.c" 125 "Check precompiler output!",
   0)

/-!
## Build-time model

To talk about what the compiled artifact contains — which is what claims
about elimination versus skipping are about — we model the severity argument
as the token written at the call site, the `##`-paste performed by
`ENFORCE_INTEGER_LITERAL`, and the statement produced by macro expansion,
together with constant folding and dead-code elimination.
-/

/-- The severity token at a `_log` call site: either an integer literal
(possibly via the `LOG_*` object-like macros, which expand to literals before
the paste) or a C identifier naming a runtime variable. -/
inductive CTok where
  | lit (n : Nat)
  | var (name : String)
deriving DecidableEq

/-- The spelling of the token. -/
def CTok.text : CTok → String
  | .lit n => toString n
  | .var x => x

/-- `ENFORCE_INTEGER_LITERAL(literal)` is `literal ## .0` (logging.c line 72).
The paste is accepted by the preprocessor only if the concatenation is a
single valid preprocessing token.  `4.0` is a pp-number; an identifier pasted
with `.0` (such as `i.0`) is valid only if its spelling starts with a digit,
which no C identifier does. -/
def enforceAccepted : CTok → Bool
  | .lit _ => true
  | .var x => (x.front).isDigit

/-- Statements of the compiled translation unit that matter here: the empty
statement, sequencing, the `_log_internal` printf body referencing the
`__FILE__` and format string literals, and a conditional whose condition is a
compile-time constant (the only kind `_log` can produce, since non-literal
severities are rejected by `ENFORCE_INTEGER_LITERAL`). -/
inductive Stmt where
  | skip
  | seq (a b : Stmt)
  | emitLine (file : String) (line : Nat) (fmt : String)
  | iteConst (c : Bool) (s : Stmt)
deriving DecidableEq

/-- Run a statement: the lines it writes to standard output. -/
def Stmt.run (verbosity : Nat) : Stmt → List String
  | .skip => []
  | .seq a b => a.run verbosity ++ b.run verbosity
  | .emitLine f l m => _log_internal verbosity f l m
  | .iteConst c s => if c then s.run verbosity else []

/-- The string literals a statement keeps a reference to (the `__FILE__`
string and the format string of each retained printf body). -/
def Stmt.strings : Stmt → List String
  | .skip => []
  | .seq a b => a.strings ++ b.strings
  | .emitLine f _ m => [f, m]
  | .iteConst _ s => s.strings

/-- Constant folding and dead-code elimination: a conditional on the constant
`false` is removed together with its whole body (and the string literals the
body referenced), a conditional on `true` is replaced by its body. -/
def Stmt.fold : Stmt → Stmt
  | .skip => .skip
  | .seq a b => .seq a.fold b.fold
  | .emitLine f l m => .emitLine f l m
  | .iteConst c s => if c then s.fold else .skip

/-- Macro expansion of `_log(level, fmt, ...)` (lines 84-89) at a call site,
for a severity that passed `ENFORCE_INTEGER_LITERAL`, i.e. a literal `n`: the
guard `n.0 && (n <= SERIAL_VERBOSITY)` is a compile-time constant, true
exactly when `n` is nonzero and `n <= SERIAL_VERBOSITY`. -/
def expandLogLit (verbosity n : Nat) (file : String) (line : Nat) (fmt : String) :
    Stmt :=
  .iteConst (log_gate n verbosity) (.emitLine file line fmt)

/-- Macro expansion of `_log(level, fmt, ...)` for an arbitrary severity
token: `ENFORCE_INTEGER_LITERAL` makes the expansion ill-formed (`none`, a
build failure) unless the token is an integer literal. -/
def expandLog (verbosity : Nat) (level : CTok) (file : String) (line : Nat)
    (fmt : String) : Option Stmt :=
  if enforceAccepted level then
    match level with
    | .lit n => some (expandLogLit verbosity n file line fmt)
    | .var _ => some .skip
  else
    none
-- The `.var` branch above is unreachable for real call sites: a C identifier
-- never begins with a digit, so `enforceAccepted` rejects every variable.

/-!
## Claims
-/

/-- C1 (counterexample): the claim states that for every literal severity L
from the enumeration and every threshold T from the enumeration, the call
produces output if and only if L is numerically less than or equal to T.  At
L = LOG_NONE = 0 and T = LOG_DEBUG = 5 we have L <= T, yet the call produces
no output, because `ENFORCE_INTEGER_LITERAL(LOG_NONE)` is the falsy double
literal `0.0`. -/
theorem C1_counterexample :
    LOG_NONE ≤ LOG_DEBUG ∧
      _log LOG_DEBUG LOG_NONE "logging.c" 113 "Log test!" = [] := by
  decide

/-- C1 (amended): for every literal severity L from FATAL to DEBUG (the
non-NONE enumeration values) and every threshold T from the enumeration, the
call produces output if and only if L is numerically at most T, and when it
produces output it produces exactly one line; a call at severity NONE never
produces output. -/
theorem C1_gate_amended (T L : Nat) (hT : T ≤ LOG_DEBUG) (hL1 : LOG_FATAL ≤ L)
    (hL5 : L ≤ LOG_DEBUG) (file : String) (line : Nat) (msg : String) :
    (_log T L file line msg ≠ [] ↔ L ≤ T) ∧
      (L ≤ T → (_log T L file line msg).length = 1) := by
  simp only [LOG_DEBUG, LOG_FATAL] at hT hL1 hL5
  have h0 : decide (L ≠ 0) = true := by simp; omega
  by_cases hLT : L ≤ T
  · have hT0 : ¬ T ≤ LOG_NONE := by unfold LOG_NONE; omega
    simp [_log, log_gate, _log_internal, h0, hLT, hT0]
  · simp [_log, log_gate, hLT]

/-- C1 witness: the amended gate theorem applied at L = LOG_INFO = 4,
T = LOG_INFO = 4. -/
theorem C1_gate_amended_witness :
    ((4 : Nat) ≤ LOG_DEBUG ∧ LOG_FATAL ≤ (4 : Nat) ∧ (4 : Nat) ≤ LOG_DEBUG) ∧
      ((_log 4 4 "logging.c" 113 "Log test!" ≠ [] ↔ (4 : Nat) ≤ 4) ∧
        ((4 : Nat) ≤ 4 → (_log 4 4 "logging.c" 113 "Log test!").length = 1)) :=
  ⟨by decide,
    C1_gate_amended 4 4 (by decide) (by decide) (by decide) "logging.c" 113 "Log test!"⟩

/-- C2 (counterexample): under threshold FATAL,
`emit(FATAL, "mod.c", 50, "Log test of module!")` does not write the line the
claim exhibits: the claim pads the location label to 29 columns and
right-justifies the line number, while the printf format `[%-30.30s: %-4d] `
pads the label to 30 columns and left-justifies the line number. -/
theorem C2_counterexample :
    _log LOG_FATAL LOG_FATAL "mod.c" 50 "Log test of module!" ≠
      ["[mod.c                        :  50 ] Log test of module!"] := by
  decide

/-- C2 (amended): when a call is admitted, the line it writes is exactly
the open bracket, the location label truncated and left-padded to 30
characters, a colon and a space, the line number left-justified in 4
characters, a closing bracket and a space, then the formatted message;
in particular `emit(FATAL, "mod.c", 50, "Log test of module!")` under
threshold FATAL writes exactly
`[mod.c` followed by 25 spaces, then `: 50  ] Log test of module!`
(see the witness). -/
theorem C2_layout_amended (T L : Nat) (file : String) (line : Nat)
    (msg : String) (h : log_gate L T = true) :
    _log T L file line msg =
      ["[" ++ fmtFile30 file ++ ": " ++ fmtLine4 line ++ "] " ++ msg] := by
  simp only [log_gate, Bool.and_eq_true, decide_eq_true_eq] at h
  have hT0 : ¬ T ≤ LOG_NONE := by unfold LOG_NONE; omega
  simp [_log, log_gate, _log_internal, h.1, h.2, hT0, formatLine]

/-- C2 witness: the amended layout theorem at threshold FATAL on the call
`emit(FATAL, "mod.c", 50, "Log test of module!")`, evaluated to the exact
line the code writes. -/
theorem C2_layout_amended_witness :
    log_gate LOG_FATAL LOG_FATAL = true ∧
      _log LOG_FATAL LOG_FATAL "mod.c" 50 "Log test of module!" =
        ["[mod.c                         : 50  ] Log test of module!"] :=
  ⟨by decide,
    (C2_layout_amended LOG_FATAL LOG_FATAL "mod.c" 50 "Log test of module!"
      (by decide)).trans (by decide)⟩

/-- C3: for literal severity L and literal threshold T with L > T, the
expansion of the `_log` call constant-folds to the no-op statement: dead-code
elimination leaves no trace of the call's string literals (neither the
`__FILE__` string nor the format string) in the artifact, and the call
produces no output. -/
theorem C3_eliminated (T L : Nat) (file : String) (line : Nat) (fmt : String)
    (h : T < L) :
    (expandLogLit T L file line fmt).fold = Stmt.skip ∧
      (expandLogLit T L file line fmt).run T = [] ∧
      ((expandLogLit T L file line fmt).fold).strings = [] := by
  have hg : log_gate L T = false := by
    simp only [log_gate, Bool.and_eq_false_iff, decide_eq_false_iff_not]
    right
    omega
  simp [expandLogLit, Stmt.fold, Stmt.run, Stmt.strings, hg]

/-- C3 witness: the elimination theorem at T = LOG_FATAL, L = LOG_INFO, on
the call at logging.c line 113. -/
theorem C3_eliminated_witness :
    LOG_FATAL < LOG_INFO ∧
      ((expandLogLit LOG_FATAL LOG_INFO "logging.c" 113 "Log test!").fold = Stmt.skip ∧
        (expandLogLit LOG_FATAL LOG_INFO "logging.c" 113 "Log test!").run LOG_FATAL = [] ∧
        ((expandLogLit LOG_FATAL LOG_INFO "logging.c" 113 "Log test!").fold).strings = []) :=
  ⟨by decide, C3_eliminated LOG_FATAL LOG_INFO "logging.c" 113 "Log test!" (by decide)⟩

/-- C4: when the build-time verbosity threshold is NONE, every call to emit,
at every severity level including FATAL, produces no output. -/
theorem C4_none_total_suppression (L : Nat) (file : String) (line : Nat)
    (msg : String) :
    _log LOG_NONE L file line msg = [] := by
  simp [_log, _log_internal, LOG_NONE]

/-- C5 (counterexample): the claim states that setting the module-local
override for level INFO to a DEBUG-equivalent value causes INFO-level calls
in that module to be admitted when the global threshold is FATAL.  With
`-DLOG_INFO_SMART_SWITCH=LOG_DEBUG` the call site's level becomes the literal
5, and `5 <= 1` is false, so the call is suppressed, not admitted. -/
theorem C5_counterexample :
    _log LOG_FATAL (LOG_INFO_SMART_SWITCH ⟨none, some LOG_DEBUG, none, none, none⟩)
      "mod.c" 42 "Log test!" = [] := by
  decide

/-- C5 (amended): setting the module-local override for level INFO to a
FATAL-equivalent value — a nonzero value at most the global threshold, such
as LOG_FATAL itself — causes INFO-named calls in that module to be admitted
even when the global threshold is FATAL, while INFO-level calls elsewhere in
the program remain suppressed; in general a module-local override for a named
level replaces the severity value used by calls to that named level within
that module only, admission still being judged against the global
threshold. -/
theorem C5_override_amended (T v : Nat) (file : String) (line : Nat)
    (msg : String) (file2 : String) (line2 : Nat) (msg2 : String)
    (hv1 : 1 ≤ v) (hvT : v ≤ T) (hT : T < LOG_INFO) :
    (_log T (LOG_INFO_SMART_SWITCH ⟨none, some v, none, none, none⟩)
        file line msg = [formatLine file line msg] ∧
      _log T LOG_INFO file2 line2 msg2 = []) ∧
      ∀ s : SmartSwitches, LOG_INFO_SMART_SWITCH s = smartSwitch s.infoSwitch LOG_INFO := by
  refine ⟨⟨?_, ?_⟩, fun s => rfl⟩
  · have hsw : LOG_INFO_SMART_SWITCH ⟨none, some v, none, none, none⟩ = v := rfl
    have hg : log_gate v T = true := by
      simp only [log_gate, Bool.and_eq_true, decide_eq_true_eq]
      omega
    have hT0 : ¬ T ≤ LOG_NONE := by
      simp only [LOG_NONE]
      omega
    simp [hsw, _log, hg, _log_internal, hT0]
  · have hg : log_gate LOG_INFO T = false := by
      simp only [log_gate, Bool.and_eq_false_iff, decide_eq_false_iff_not]
      right
      omega
    simp [_log, hg]

/-- C5 witness: the amended override theorem with the override set to
LOG_FATAL under global threshold FATAL. -/
theorem C5_override_amended_witness :
    ((1 : Nat) ≤ LOG_FATAL ∧ LOG_FATAL ≤ LOG_FATAL ∧ LOG_FATAL < LOG_INFO) ∧
      ((_log LOG_FATAL
          (LOG_INFO_SMART_SWITCH ⟨none, some LOG_FATAL, none, none, none⟩)
          "mod.c" 42 "Log test!" = [formatLine "mod.c" 42 "Log test!"] ∧
        _log LOG_FATAL LOG_INFO "logging.c" 113 "Log test!" = []) ∧
        ∀ s : SmartSwitches,
          LOG_INFO_SMART_SWITCH s = smartSwitch s.infoSwitch LOG_INFO) :=
  ⟨by decide,
    C5_override_amended LOG_FATAL LOG_FATAL "mod.c" 42 "Log test!"
      "logging.c" 113 "Log test!" (by decide) (by decide) (by decide)⟩

/-- C6: there are exactly five module-local override slots, one per non-NONE
severity level, and when a slot is unset it defaults to that level's own
numeric value, so an unset override changes nothing about admission. -/
theorem C6_default_switches (T : Nat) (file : String) (line : Nat)
    (msg : String) :
    (LOG_DEBUG_SMART_SWITCH noSwitches = LOG_DEBUG ∧
      LOG_INFO_SMART_SWITCH noSwitches = LOG_INFO ∧
      LOG_WARNING_SMART_SWITCH noSwitches = LOG_WARNING ∧
      LOG_ERROR_SMART_SWITCH noSwitches = LOG_ERROR ∧
      LOG_FATAL_SMART_SWITCH noSwitches = LOG_FATAL) ∧
      ∀ lvl : Nat, _log T (smartSwitch none lvl) file line msg =
        _log T lvl file line msg :=
  ⟨⟨rfl, rfl, rfl, rfl, rfl⟩, fun _ => rfl⟩

/-- C7 (counterexample): the claim states that passing a runtime-determined
severity to the gating check still yields a runtime conditional with correct
filtering.  On the code as written, `ENFORCE_INTEGER_LITERAL` token-pastes
the identifier with `.0`, producing an invalid token (`i.0`), so the
expansion of `_log(i, "Hello debug level %i", i)` at logging.c line 149 fails
to compile: no program, hence no runtime conditional, exists. -/
theorem C7_counterexample :
    expandLog LOG_FATAL (CTok.var "i") "logging.c" 149 "Hello debug level %i" =
        none ∧
      enforceAccepted (CTok.var "i") = false := by
  decide

/-- C7 (amended): passing a non-constant, runtime-determined severity (a C
identifier, whose spelling never begins with a digit) to the gating check is
rejected at build time by the literal-forcing guard: the macro expansion is
ill-formed and no binary is produced, so no runtime filtering occurs; the
loop iterating levels 3..8 is excluded from the build behind the undefined
macro `FORBIDDEN_STATEMENTS`. -/
theorem C7_build_rejection_amended (T : Nat) (x : String) (file : String)
    (line : Nat) (fmt : String) (h : (x.front).isDigit = false) :
    expandLog T (CTok.var x) file line fmt = none := by
  simp [expandLog, enforceAccepted, h]

/-- C7 witness: the build-rejection theorem on the loop variable `i` of
logging.c line 149. -/
theorem C7_build_rejection_amended_witness :
    (("i".front).isDigit = false) ∧
      expandLog LOG_FATAL (CTok.var "i") "logging.c" 148 "Hello debug level %i" =
        none :=
  ⟨by decide,
    C7_build_rejection_amended LOG_FATAL "i" "logging.c" 148 "Hello debug level %i"
      (by decide)⟩

/-- C8: for every threshold, including DEBUG, a call at severity NONE
produces no output, even though NONE is numerically at most the threshold:
`ENFORCE_INTEGER_LITERAL(LOG_NONE)` is the conjunct `0.0`, which is false. -/
theorem C8_none_level_never_emits (T : Nat) (file : String) (line : Nat)
    (msg : String) :
    LOG_NONE ≤ T ∧ _log T LOG_NONE file line msg = [] :=
  ⟨Nat.zero_le T, by simp [_log, log_gate, LOG_NONE]⟩

/-- C9: the convenience wrappers equal the gated emit with their level baked
in, for every threshold: `LOGf` behaves as `_log(LOG_FATAL, ...)` and `LOGi`
behaves as `_log(LOG_INFO, ...)`, the explicit empty redefinition of `LOGi`
below threshold INFO included. -/
theorem C9_wrappers_equal_gated (T : Nat) (file : String) (line : Nat)
    (msg : String) :
    LOGf T file line msg = _log T LOG_FATAL file line msg ∧
      LOGi T file line msg = _log T LOG_INFO file line msg := by
  refine ⟨rfl, ?_⟩
  unfold LOGi
  by_cases h : T < LOG_INFO
  · have hg : log_gate LOG_INFO T = false := by
      simp only [log_gate, Bool.and_eq_false_iff, decide_eq_false_iff_not]
      right
      simp only [LOG_INFO] at h ⊢
      omega
    simp [h, _log, hg]
  · simp [h]

/-- C10: built with threshold FATAL (the default Makefile target), running
main writes zero bytes to standard output and returns 0: the INFO call at
line 113, the DEBUG-switch call at line 115 (the switch defaulting to DEBUG)
and the LOGi call at line 125 are all suppressed. -/
theorem C10_main_fatal_silent :
    mainFn LOG_FATAL noSwitches = ([], 0) := by
  decide
